import Mathlib

/-!
Shallow embedding of `src/main.py` (SpotCLI): a menu-driven terminal client
that issues playback-control requests against a remote music service through
the spotipy Adapter.  Pure fragments (input parsing, time/percent formatting,
menu dispatch) become Lean functions; each command handler becomes a function
from its console inputs and the Adapter's responses (modelled as
`Except String _`, an Adapter failure carrying its message — spotipy raises
`Exception` subclasses only) to the list of console outputs and the list of
Adapter calls it issues.  `sys.exit` raises `SystemExit`, which is *not* an
`Exception` subclass in Python 3; the exception model below keeps the three
relevant classes apart.
-/

namespace SpotCLI

/-- Model of Python `str.isdigit` for ASCII strings: non-empty and every
character a decimal digit (used at `main.py:135`, `174`, `249`). -/
def pyIsDigit (s : String) : Bool :=
  !s.data.isEmpty && s.data.all (·.isDigit)

/-- Model of Python `int(...)` on a digit string: positional base-10 value
(used at `main.py:135-138`, `174-177`, `249-250`). -/
def pyInt (s : String) : Nat :=
  s.data.foldl (fun n c => n * 10 + (c.toNat - '0'.toNat)) 0

/-- Model of Python `str.strip`: drop whitespace from both ends.  The source
never calls it; it is needed to state the spec's stripping claim. -/
def pyStrip (s : String) : String :=
  ⟨((s.data.dropWhile (·.isWhitespace)).reverse.dropWhile (·.isWhitespace)).reverse⟩

/-- Python truthiness of an optional string (`os.getenv` result): `None` and
the empty string are falsy (`main.py:27`). -/
def truthy : Option String → Bool
  | none => false
  | some s => !s.data.isEmpty

/-- Python `", ".join(...)` (`main.py:123`, `195`). -/
def joinComma : List String → String
  | [] => ""
  | [a] => a
  | a :: rest => a ++ ", " ++ joinComma rest

/-- The spec-side reading of "an integer string whose value lies in `[1,N]`". -/
def intStrInRange (s : String) (lo hi : Nat) : Prop :=
  pyIsDigit s = true ∧ lo ≤ pyInt s ∧ pyInt s ≤ hi

instance (s : String) (lo hi : Nat) : Decidable (intStrInRange s lo hi) :=
  inferInstanceAs (Decidable (_ ∧ _ ∧ _))

/-! ## Data model (typed view of the Adapter's response records) -/

structure Track where
  name : String
  artists : List String
  album : String
  duration_ms : Nat
  uri : String
  deriving DecidableEq

structure Playlist where
  name : String
  tracks_total : Nat
  uri : String
  deriving DecidableEq

structure Device where
  volume_percent : Nat
  deriving DecidableEq

/-- The `current_playback()` response record. -/
structure PlaybackState where
  is_playing : Bool
  progress_ms : Nat
  item : Option Track
  shuffle_state : Bool
  repeat_state : String
  device : Device
  deriving DecidableEq

/-- Requests a handler can issue through the Adapter. -/
inductive Call where
  | currentPlayback
  | pausePlayback
  | startPlayback
  | startPlaybackUris (uris : List String)
  | startPlaybackContext (uri : String)
  | nextTrack
  | previousTrack
  | search (q : String) (limit : Nat)
  | currentUserPlaylists
  | setVolume (v : Nat)
  deriving DecidableEq

/-- Console output items: a printed line, or a rendered table of rows. -/
inductive Out where
  | line (s : String)
  | table (title : String) (rows : List (List String))
  deriving DecidableEq

/-- Rendering of a caught exception: `f"Error: {e}"` (every handler's
`except` clause). -/
def errLine (m : String) : String := "Error: " ++ m

/-! ## Formatter (`show_current_track`, `main.py:202-213`) -/

/-- Python `f"{x:02d}"`: zero-pad to two digits. -/
def pad2 (n : Nat) : String :=
  if n < 10 then "0" ++ toString n else toString n

/-- The `minutes:seconds` rendering of a millisecond count: integer division and
modulo on total seconds, seconds zero-padded (`main.py:208-211`). -/
def fmtMinSec (ms : Nat) : String :=
  toString (ms / 1000 / 60) ++ ":" ++ pad2 (ms / 1000 % 60)

/-- Number of tenths of a percent shown for `progress_ms / duration_ms * 100`
formatted with `:.1f`: round half to even at one decimal, in exact integer
arithmetic (`main.py:205`, `213`). -/
def tenthsOfPercent (p d : Nat) : Nat :=
  let num := p * 1000
  let q := num / d
  let r := num % d
  if 2 * r < d then q
  else if d < 2 * r then q + 1
  else if q % 2 = 0 then q else q + 1

/-- The percent indicator string, one decimal place (`main.py:213`). -/
def percentStr (p d : Nat) : String :=
  toString (tenthsOfPercent p d / 10) ++ "." ++ toString (tenthsOfPercent p d % 10)

/-- The whole progress line of `main.py:213`. -/
def progressLine (p d : Nat) : String :=
  "Progress: " ++ fmtMinSec p ++ "/" ++ fmtMinSec d ++ " (" ++ percentStr p d ++ "%)"

/-! ## Command handlers

Each `*_run` function takes the handler's console inputs and one
`Except String _` per Adapter call site (in program order) and returns
`(console outputs, Adapter calls issued)`.  A call is recorded when the
source reaches the call site, whether or not the call then fails. -/

/-- Handler `toggle_playback` (`main.py:61-74`). -/
def toggle_playback_run (fetch : Except String (Option PlaybackState))
    (pauseRes startRes : Except String Unit) : List Out × List Call :=
  match fetch with
  | .error m => ([.line (errLine m)], [.currentPlayback])
  | .ok status =>
    if (match status with | some st => st.is_playing | none => false) then
      match pauseRes with
      | .error m => ([.line (errLine m)], [.currentPlayback, .pausePlayback])
      | .ok _ => ([.line "Playback paused"], [.currentPlayback, .pausePlayback])
    else
      match startRes with
      | .error m => ([.line (errLine m)], [.currentPlayback, .startPlayback])
      | .ok _ => ([.line "Playback started"], [.currentPlayback, .startPlayback])

/-- Handler `next_track` (`main.py:76-84`). -/
def next_track_run (res : Except String Unit) : List Out × List Call :=
  match res with
  | .error m => ([.line (errLine m)], [.nextTrack])
  | .ok _ => ([.line "Skipped to next track"], [.nextTrack])

/-- Handler `previous_track` (`main.py:86-94`). -/
def previous_track_run (res : Except String Unit) : List Out × List Call :=
  match res with
  | .error m => ([.line (errLine m)], [.previousTrack])
  | .ok _ => ([.line "Returned to previous track"], [.previousTrack])

/-- One row of the search-result table (`main.py:122-129`). -/
def trackRow (i : Nat) (t : Track) : List String :=
  [toString (i + 1), t.name, joinComma t.artists, t.album]

/-- Handler `search_track` (`main.py:96-143`).  `query` and `choice` are the two
console inputs; `searchRes` and `startRes` the two Adapter call results. -/
def search_track_run (query : String) (searchRes : Except String (List Track))
    (choice : String) (startRes : Except String Unit) : List Out × List Call :=
  if query.data.isEmpty then ([], [])
  else
    match searchRes with
    | .error m => ([.line (errLine m)], [.search query 10])
    | .ok tracks =>
      if tracks.isEmpty then ([.line "No tracks found."], [.search query 10])
      else
        let tbl := Out.table ("Results for '" ++ query ++ "'")
          (tracks.enum.map fun it => trackRow it.1 it.2)
        if intStrInRange choice 1 tracks.length then
          match tracks.get? (pyInt choice - 1) with
          | some t =>
            match startRes with
            | .error m =>
              ([tbl, .line (errLine m)], [.search query 10, .startPlaybackUris [t.uri]])
            | .ok _ =>
              ([tbl, .line ("Now playing: " ++ t.name)],
               [.search query 10, .startPlaybackUris [t.uri]])
          | none => ([tbl], [.search query 10])
        else ([tbl], [.search query 10])

/-- One row of the playlist table (`main.py:163-168`). -/
def playlistRow (i : Nat) (p : Playlist) : List String :=
  [toString (i + 1), p.name, toString p.tracks_total]

/-- Handler `list_playlists` (`main.py:145-182`).  The source passes no page size to
`current_user_playlists()` and never truncates the returned items. -/
def list_playlists_run (listRes : Except String (List Playlist))
    (choice : String) (startRes : Except String Unit) : List Out × List Call :=
  match listRes with
  | .error m => ([.line (errLine m)], [.currentUserPlaylists])
  | .ok items =>
    if items.isEmpty then ([.line "No playlists found."], [.currentUserPlaylists])
    else
      let tbl := Out.table "Your Playlists" (items.enum.map fun ip => playlistRow ip.1 ip.2)
      if intStrInRange choice 1 items.length then
        match items.get? (pyInt choice - 1) with
        | some p =>
          match startRes with
          | .error m =>
            ([tbl, .line (errLine m)], [.currentUserPlaylists, .startPlaybackContext p.uri])
          | .ok _ =>
            ([tbl, .line ("Now playing playlist: " ++ p.name)],
             [.currentUserPlaylists, .startPlaybackContext p.uri])
        | none => ([tbl], [.currentUserPlaylists])
      else ([tbl], [.currentUserPlaylists])

/-- The shuffle line (`main.py:216-219`). -/
def shuffleLine (b : Bool) : String :=
  if b then "Shuffle: On" else "Shuffle: Off"

/-- The repeat lines (`main.py:221-227`): unknown states print nothing. -/
def repeatLines (r : String) : List Out :=
  if r = "off" then [.line "Repeat: Off"]
  else if r = "track" then [.line "Repeat: Track"]
  else if r = "context" then [.line "Repeat: Playlist/Album"]
  else []

/-- Handler `show_current_track` (`main.py:184-233`).  The four header lines print
before the progress computation; `progress_ms / duration_ms` raises
`ZeroDivisionError` when `duration_ms = 0`, caught by the handler's own
`except Exception` after the headers are already out. -/
def show_current_track_run (fetch : Except String (Option PlaybackState)) :
    List Out × List Call :=
  match fetch with
  | .error m => ([.line (errLine m)], [.currentPlayback])
  | .ok current =>
    match current with
    | none => ([.line "No track currently playing."], [.currentPlayback])
    | some cur =>
      match cur.item with
      | none => ([.line "No track currently playing."], [.currentPlayback])
      | some track =>
        let headers : List Out :=
          [.line "Now Playing:",
           .line ("Track: " ++ track.name),
           .line ("Artist: " ++ joinComma track.artists),
           .line ("Album: " ++ track.album)]
        if track.duration_ms = 0 then
          (headers ++ [.line (errLine "division by zero")], [.currentPlayback])
        else
          (headers ++
            [.line (progressLine cur.progress_ms track.duration_ms),
             .line (shuffleLine cur.shuffle_state)] ++
            repeatLines cur.repeat_state ++
            [.line "Press Enter to return to menu..."],
           [.currentPlayback])

/-- Handler `adjust_volume` (`main.py:235-259`). -/
def adjust_volume_run (fetch : Except String (Option PlaybackState))
    (input : String) (volRes : Except String Unit) : List Out × List Call :=
  match fetch with
  | .error m => ([.line (errLine m)], [.currentPlayback])
  | .ok none => ([.line "No active device found."], [.currentPlayback])
  | .ok (some cur) =>
    let volLine := Out.line ("Current volume: " ++ toString cur.device.volume_percent ++ "%")
    if intStrInRange input 0 100 then
      match volRes with
      | .error m =>
        ([volLine, .line (errLine m)], [.currentPlayback, .setVolume (pyInt input)])
      | .ok _ =>
        ([volLine, .line ("Volume adjusted to " ++ input ++ "%")],
         [.currentPlayback, .setVolume (pyInt input)])
    else
      ([volLine, .line "Invalid value. Volume must be between 0 and 100."],
       [.currentPlayback])

/-! ## Menu dispatcher and `main` (`main.py:47-59`, `261-295`) -/

inductive Handler where
  | toggle | next | prev | search | playlists | current | volume
  deriving DecidableEq

inductive MenuAction where
  | invokes (h : Handler)
  | exits
  | invalid
  deriving DecidableEq

/-- The `if/elif` chain of `main` (`main.py:271-290`) on the raw line
returned by `display_menu` — the source performs no stripping. -/
def dispatch (option : String) : MenuAction :=
  if option = "1" then .invokes .toggle
  else if option = "2" then .invokes .next
  else if option = "3" then .invokes .prev
  else if option = "4" then .invokes .search
  else if option = "5" then .invokes .playlists
  else if option = "6" then .invokes .current
  else if option = "7" then .invokes .volume
  else if option = "0" then .exits
  else .invalid

/-- The eight option codes. -/
def optionCodes : List String := ["0", "1", "2", "3", "4", "5", "6", "7"]

/-- What `display_menu` prints each iteration (`main.py:49-58`). -/
def menuLines : List Out :=
  [.line "===== Spotify CLI Player =====",
   .line "1. Play/Pause", .line "2. Next Track", .line "3. Previous Track",
   .line "4. Search Track", .line "5. My Playlists", .line "6. Current Track Info",
   .line "7. Adjust Volume", .line "0. Exit"]

/-- Python exception classes relevant to `main`: `Exception` subclasses
(caught by `except Exception`), `KeyboardInterrupt` and `SystemExit`
(both `BaseException`-only — not caught by `except Exception`). -/
inductive Exc where
  | generic (msg : String)
  | interrupt
  | systemExit (code : Nat)
  deriving DecidableEq

/-- What happens in one iteration of the dispatcher loop: a line of menu
input (a handler, invoked with some Adapter behavior, returns normally — its
own `except Exception` is modelled in the `*_run` functions), or an exception
that escapes to `main` (`KeyboardInterrupt` anywhere, or an `Exception` such
as `EOFError` raised by `console.input`; no code in the loop calls
`sys.exit`). -/
inductive LoopEvent where
  | input (s : String)
  | interruptRaised
  | genericRaised (msg : String)

/-- The credential guidance printed by `setup_spotify` (`main.py:28-32`). -/
def credErrorLines : List Out :=
  [.line "Error: Spotify credentials not configured!",
   .line "Please set the following environment variables:",
   .line "  - SPOTIPY_CLIENT_ID",
   .line "  - SPOTIPY_CLIENT_SECRET",
   .line "  - SPOTIPY_REDIRECT_URI (optional, default: http://127.0.0.1:8888/callback)"]

/-- Environment-sourced startup configuration (`main.py:17-18`):
`os.getenv` yields `None` when unset. -/
structure Env where
  client_id : Option String
  client_secret : Option String

/-- Startup function `setup_spotify` (`main.py:25-45`): missing or empty credentials raise
`SystemExit 1`; an `Exception` from client construction is caught and also
turned into `SystemExit 1`. -/
def setup_spotify (env : Env) (authRes : Except String Unit) :
    List Out × Except Exc Unit :=
  if !truthy env.client_id || !truthy env.client_secret then
    (credErrorLines, .error (.systemExit 1))
  else
    match authRes with
    | .error m =>
      ([.line ("Error authenticating with Spotify: " ++ m)], .error (.systemExit 1))
    | .ok _ => ([], .ok ())

/-- The `while True` dispatcher loop of `main` (`main.py:268-290`), run over
a finite script of loop events.  Handler outputs are elided (they are
modelled by the `*_run` functions); `none` means the script ran out with the
loop still going. -/
def runMenuLoop : List LoopEvent → List Out × Option (Except Exc Unit)
  | [] => ([], none)
  | .interruptRaised :: _ => (menuLines, some (.error .interrupt))
  | .genericRaised m :: _ => (menuLines, some (.error (.generic m)))
  | .input s :: rest =>
    match dispatch s with
    | .exits =>
      (menuLines ++ [.line "Exiting Spotify CLI Player. Goodbye!"], some (.ok ()))
    | .invokes _ =>
      let (outs, r) := runMenuLoop rest
      (menuLines ++ outs, r)
    | .invalid =>
      let (outs, r) := runMenuLoop rest
      (menuLines ++ [.line "Invalid option. Please try again."] ++ outs, r)

/-- Function `main` plus process-level exception semantics (`main.py:261-298`): the
`try` wraps setup and the loop; `except KeyboardInterrupt` and
`except Exception` print and return normally (exit status 0); an uncaught
`SystemExit c` exits with status `c`.  Returns the console output and
`some exitCode`, or `none` in the second component when the event script
was exhausted with the loop still running. -/
def main_run (env : Env) (authRes : Except String Unit)
    (events : List LoopEvent) : List Out × Option Nat :=
  let start := Out.line "Starting Spotify CLI Player..."
  let (setupOuts, setupRes) := setup_spotify env authRes
  match setupRes with
  | .error e =>
    (start :: setupOuts,
     some (match e with
           | .systemExit c => c
           | .interrupt => 0
           | .generic _ => 0))
  | .ok _ =>
    let (loopOuts, loopRes) := runMenuLoop events
    match loopRes with
    | none => (start :: setupOuts ++ loopOuts, none)
    | some (.ok _) => (start :: setupOuts ++ loopOuts, some 0)
    | some (.error .interrupt) =>
      (start :: setupOuts ++ loopOuts ++ [.line "Program interrupted. Goodbye!"], some 0)
    | some (.error (.generic m)) =>
      (start :: setupOuts ++ loopOuts ++ [.line ("Unexpected error: " ++ m)], some 0)
    | some (.error (.systemExit c)) => (start :: setupOuts ++ loopOuts, some c)

/-! ## Claims -/

/-- C1: selection parsing for search results — with `N ≤ 10` results listed,
a playback-start call with the chosen track's URI is issued iff the selection
input is an integer string whose value lies in `[1,N]`; `"0"`, out-of-range
integers, and non-numeric strings all leave the search call as the only
Adapter call. -/
theorem c1_search_selection (tracks : List Track) (query choice : String)
    (hq : query ≠ "") (hN : tracks.length ≤ 10) :
    ((∃ u, Call.startPlaybackUris u ∈ (search_track_run query (.ok tracks) choice (.ok ())).2)
      ↔ intStrInRange choice 1 tracks.length)
    ∧ (∀ t, intStrInRange choice 1 tracks.length →
        tracks.get? (pyInt choice - 1) = some t →
        (search_track_run query (.ok tracks) choice (.ok ())).2
          = [.search query 10, .startPlaybackUris [t.uri]])
    ∧ (¬ intStrInRange choice 1 tracks.length →
        (search_track_run query (.ok tracks) choice (.ok ())).2 = [.search query 10]) := by
  have hqd : query.data.isEmpty = false := by
    cases hqe : query.data.isEmpty
    · rfl
    · exact absurd (String.ext (by simpa [List.isEmpty_iff] using hqe)) hq
  rcases tracks with _ | ⟨t0, ts⟩
  · have hnr : ¬ intStrInRange choice 1 ([] : List Track).length := by
      rintro ⟨_, h1, h2⟩
      simp at h2
      omega
    have hrun : (search_track_run query (.ok []) choice (.ok ())).2 = [.search query 10] := by
      unfold search_track_run
      simp only [hqd, Bool.false_eq_true, if_false, List.isEmpty_nil, if_true]
    refine ⟨?_, fun t hr _ => absurd hr hnr, fun _ => hrun⟩
    rw [hrun]
    constructor
    · rintro ⟨u, hu⟩
      simp at hu
    · intro hr
      exact absurd hr hnr
  · by_cases hr : intStrInRange choice 1 (t0 :: ts).length
    · have hlt : pyInt choice - 1 < (t0 :: ts).length := by
        rcases hr with ⟨_, h1, h2⟩
        simp at h2 ⊢
        omega
      rcases hget : (t0 :: ts).get? (pyInt choice - 1) with _ | t
      · rw [List.get?_eq_none] at hget
        omega
      · have hrun : (search_track_run query (.ok (t0 :: ts)) choice (.ok ())).2
            = [.search query 10, .startPlaybackUris [t.uri]] := by
          unfold search_track_run
          simp only [hqd, Bool.false_eq_true, if_false, List.isEmpty_cons, if_pos hr, hget]
        refine ⟨?_, fun t' _ hget' => ?_, fun hn => absurd hr hn⟩
        · rw [hrun]
          constructor
          · intro _
            exact hr
          · intro _
            exact ⟨[t.uri], by simp⟩
        · have ht' : t' = t := (Option.some.inj hget').symm
          subst ht'
          exact hrun
    · have hrun : (search_track_run query (.ok (t0 :: ts)) choice (.ok ())).2
          = [.search query 10] := by
        unfold search_track_run
        simp only [hqd, Bool.false_eq_true, if_false, List.isEmpty_cons, if_neg hr]
      refine ⟨?_, fun t hr' _ => absurd hr' hr, fun _ => hrun⟩
      rw [hrun]
      constructor
      · rintro ⟨u, hu⟩
        simp at hu
      · intro hr'
        exact absurd hr' hr

/-- C1 witness: two concrete tracks; the in-range selection `"2"` issues the
playback-start call with the second track's URI, while `"0"` issues none. -/
theorem c1_search_selection_witness :
    (search_track_run "q" (.ok [⟨"A", ["x"], "al", 1000, "uA"⟩, ⟨"B", ["y"], "al", 1000, "uB"⟩])
        "2" (.ok ())).2
      = [.search "q" 10, .startPlaybackUris ["uB"]]
    ∧ (search_track_run "q" (.ok [⟨"A", ["x"], "al", 1000, "uA"⟩, ⟨"B", ["y"], "al", 1000, "uB"⟩])
        "0" (.ok ())).2
      = [.search "q" 10] :=
  ⟨(c1_search_selection [⟨"A", ["x"], "al", 1000, "uA"⟩, ⟨"B", ["y"], "al", 1000, "uB"⟩]
      "q" "2" (by decide) (by decide)).2.1 ⟨"B", ["y"], "al", 1000, "uB"⟩ (by decide) (by decide),
   (c1_search_selection [⟨"A", ["x"], "al", 1000, "uA"⟩, ⟨"B", ["y"], "al", 1000, "uB"⟩]
      "q" "0" (by decide) (by decide)).2.2 (by decide)⟩

/-- C2: volume parsing — with a device present, a volume-set call is issued
iff the input is an integer string whose value lies in `[0,100]` (and then
with exactly that value); any other input prints the rejection message and
issues no volume-set call. -/
theorem c2_volume_parsing (st : PlaybackState) (input : String) :
    ((∃ v, Call.setVolume v ∈ (adjust_volume_run (.ok (some st)) input (.ok ())).2)
      ↔ intStrInRange input 0 100)
    ∧ (intStrInRange input 0 100 →
        adjust_volume_run (.ok (some st)) input (.ok ())
          = ([.line ("Current volume: " ++ toString st.device.volume_percent ++ "%"),
              .line ("Volume adjusted to " ++ input ++ "%")],
             [.currentPlayback, .setVolume (pyInt input)]))
    ∧ (¬ intStrInRange input 0 100 →
        adjust_volume_run (.ok (some st)) input (.ok ())
          = ([.line ("Current volume: " ++ toString st.device.volume_percent ++ "%"),
              .line "Invalid value. Volume must be between 0 and 100."],
             [.currentPlayback])) := by
  by_cases hr : intStrInRange input 0 100
  · refine ⟨⟨fun _ => hr, fun _ => ⟨pyInt input, by simp [adjust_volume_run, hr]⟩⟩,
      fun _ => by simp [adjust_volume_run, hr], fun hn => absurd hr hn⟩
  · refine ⟨⟨fun hex => ?_, fun h => absurd h hr⟩, fun h => absurd h hr,
      fun _ => by simp [adjust_volume_run, hr]⟩
    rcases hex with ⟨v, hv⟩
    simp [adjust_volume_run, hr] at hv

/-- C2 witness: at a concrete device state, input `"42"` issues
`setVolume 42` and input `"101"` is rejected with no volume-set call. -/
theorem c2_volume_parsing_witness :
    adjust_volume_run (.ok (some ⟨false, 0, none, false, "off", ⟨50⟩⟩)) "42" (.ok ())
      = ([.line ("Current volume: " ++ toString (50 : Nat) ++ "%"),
          .line ("Volume adjusted to " ++ "42" ++ "%")],
         [.currentPlayback, .setVolume (pyInt "42")])
    ∧ adjust_volume_run (.ok (some ⟨false, 0, none, false, "off", ⟨50⟩⟩)) "101" (.ok ())
      = ([.line ("Current volume: " ++ toString (50 : Nat) ++ "%"),
          .line "Invalid value. Volume must be between 0 and 100."],
         [.currentPlayback]) :=
  ⟨(c2_volume_parsing ⟨false, 0, none, false, "off", ⟨50⟩⟩ "42").2.1 (by decide),
   (c2_volume_parsing ⟨false, 0, none, false, "off", ⟨50⟩⟩ "101").2.2 (by decide)⟩

/-- C3: for every playback state returned by the Adapter, the toggle handler
issues a pause request exactly when the state is present with
`is_playing = true`, and a resume/start request exactly when `is_playing` is
false or no state is returned; exactly one of the two is issued per
invocation (absent an Adapter failure). -/
theorem c3_toggle_playback (status : Option PlaybackState) :
    ((toggle_playback_run (.ok status) (.ok ()) (.ok ())).2
        = [.currentPlayback, .pausePlayback]
      ↔ ∃ st, status = some st ∧ st.is_playing = true)
    ∧ ((toggle_playback_run (.ok status) (.ok ()) (.ok ())).2
        = [.currentPlayback, .startPlayback]
      ↔ ¬ ∃ st, status = some st ∧ st.is_playing = true) := by
  rcases status with _ | st
  · simp [toggle_playback_run]
  · rcases hp : st.is_playing <;> simp [toggle_playback_run, hp]

/-- C4: the percent indicator is `progress_ms / duration_ms * 100` to one
decimal place and both times render as `minutes:seconds` by integer
division/modulo with two-digit zero-padded seconds; concretely
`progress_ms = 65000`, `duration_ms = 200000` renders percent `"32.5"`,
progress `"1:05"`, duration `"3:20"`, and the handler prints exactly that
progress line. -/
theorem c4_progress_rendering :
    percentStr 65000 200000 = "32.5"
    ∧ fmtMinSec 65000 = "1:05"
    ∧ fmtMinSec 200000 = "3:20"
    ∧ (∀ ms : Nat, fmtMinSec ms = toString (ms / 1000 / 60) ++ ":" ++ pad2 (ms / 1000 % 60))
    ∧ progressLine 65000 200000 = "Progress: 1:05/3:20 (32.5%)" := by
  refine ⟨by decide, by decide, by decide, fun ms => rfl, by decide⟩

/-- C5 counterexample: the dispatcher does not strip the input line before
matching — `" 1"` strips to the code `"1"` (which maps to the toggle
handler), yet the dispatcher treats `" 1"` as invalid rather than invoking
that handler. -/
theorem c5_counterexample :
    pyStrip " 1" = "1"
    ∧ dispatch "1" = .invokes .toggle
    ∧ dispatch " 1" = .invalid
    ∧ dispatch " 1" ≠ dispatch (pyStrip " 1") := by decide

/-- C5 (amended): the input line is matched verbatim (no stripping) against
the codes `"0"`..`"7"`; every input outside that set is dispatched as
invalid, and the loop then prints the invalid-option message and re-prompts
without invoking any handler; each code `"1"`..`"7"` maps to exactly its
handler and `"0"` terminates the loop. -/
theorem c5_dispatch (s : String) :
    (s ∉ optionCodes →
      dispatch s = .invalid
      ∧ ∀ rest, runMenuLoop (.input s :: rest)
          = (menuLines ++ [.line "Invalid option. Please try again."]
              ++ (runMenuLoop rest).1, (runMenuLoop rest).2))
    ∧ (∀ h, dispatch s = .invokes h → s ∈ optionCodes)
    ∧ dispatch "1" = .invokes .toggle ∧ dispatch "2" = .invokes .next
    ∧ dispatch "3" = .invokes .prev ∧ dispatch "4" = .invokes .search
    ∧ dispatch "5" = .invokes .playlists ∧ dispatch "6" = .invokes .current
    ∧ dispatch "7" = .invokes .volume ∧ dispatch "0" = .exits
    ∧ (∀ rest, (runMenuLoop (.input "0" :: rest)).2 = some (.ok ())) := by
  have hinv : s ∉ optionCodes → dispatch s = .invalid := by
    intro hm
    unfold dispatch
    split_ifs with h1 h2 h3 h4 h5 h6 h7 h8
    · exact absurd (by rw [h1]; decide) hm
    · exact absurd (by rw [h2]; decide) hm
    · exact absurd (by rw [h3]; decide) hm
    · exact absurd (by rw [h4]; decide) hm
    · exact absurd (by rw [h5]; decide) hm
    · exact absurd (by rw [h6]; decide) hm
    · exact absurd (by rw [h7]; decide) hm
    · exact absurd (by rw [h8]; decide) hm
    · rfl
  refine ⟨fun hm => ⟨hinv hm, fun rest => by simp [runMenuLoop, hinv hm]⟩,
    fun h hd => ?_, by decide, by decide, by decide, by decide, by decide,
    by decide, by decide, by decide, fun rest => ?_⟩
  · by_contra hm
    rw [hinv hm] at hd
    exact MenuAction.noConfusion hd
  · have h0 : dispatch "0" = .exits := by decide
    simp [runMenuLoop, h0]

/-- C5 witness: instantiating the amended dispatch theorem at the
out-of-set input `"9"`. -/
theorem c5_dispatch_witness :
    dispatch "9" = .invalid ∧ dispatch "1" = .invokes .toggle :=
  ⟨((c5_dispatch "9").1 (by decide)).1, (c5_dispatch "9").2.2.1⟩

/-- An eleven-element playlist page, as the Adapter's default first page
(50 items in spotipy) can legitimately return. -/
def elevenPlaylists : List Playlist :=
  (List.range 11).map fun i => ⟨"p", i, "u" ++ toString i⟩

/-- C6 counterexample: the handler never truncates the playlist page to 10
items — with eleven playlists returned, all eleven rows are presented and
the selection `"11"` (outside `[1,10]`) issues a context-playback call. -/
theorem c6_counterexample :
    elevenPlaylists.length = 11
    ∧ (list_playlists_run (.ok elevenPlaylists) "11" (.ok ())).2
        = [.currentUserPlaylists, .startPlaybackContext "u10"]
    ∧ (list_playlists_run (.ok elevenPlaylists) "11" (.ok ())).1.head?
        = some (Out.table "Your Playlists"
            (elevenPlaylists.enum.map fun ip => playlistRow ip.1 ip.2))
    ∧ (elevenPlaylists.enum.map fun ip => playlistRow ip.1 ip.2).length = 11 := by
  refine ⟨by decide, by decide, ?_, by decide⟩
  decide

/-- C6 (amended): the playlist listing is presented exactly as the Adapter's
first page returns it — index-addressed `1..N` with no truncation to 10 —
and exactly the selections in `[1,N]` issue a context-playback call (with the
chosen playlist's URI), where `N` is the number of returned items. -/
theorem c6_playlist_listing (items : List Playlist) (choice : String) :
    (items ≠ [] →
      (list_playlists_run (.ok items) choice (.ok ())).1.head?
        = some (Out.table "Your Playlists" (items.enum.map fun ip => playlistRow ip.1 ip.2))
      ∧ (items.enum.map fun ip => playlistRow ip.1 ip.2).length = items.length)
    ∧ ((∃ u, Call.startPlaybackContext u ∈ (list_playlists_run (.ok items) choice (.ok ())).2)
        ↔ intStrInRange choice 1 items.length)
    ∧ (∀ p, intStrInRange choice 1 items.length →
        items.get? (pyInt choice - 1) = some p →
        (list_playlists_run (.ok items) choice (.ok ())).2
          = [.currentUserPlaylists, .startPlaybackContext p.uri])
    ∧ (¬ intStrInRange choice 1 items.length →
        (list_playlists_run (.ok items) choice (.ok ())).2 = [.currentUserPlaylists]) := by
  rcases items with _ | ⟨p0, ps⟩
  · have hnr : ¬ intStrInRange choice 1 ([] : List Playlist).length := by
      rintro ⟨_, h1, h2⟩
      simp at h2
      omega
    have hrun : (list_playlists_run (.ok []) choice (.ok ())).2 = [.currentUserPlaylists] := by
      unfold list_playlists_run
      simp only [List.isEmpty_nil, if_true]
    refine ⟨fun hne => absurd rfl hne, ?_, fun p hr _ => absurd hr hnr, fun _ => hrun⟩
    rw [hrun]
    constructor
    · rintro ⟨u, hu⟩
      simp at hu
    · intro hr
      exact absurd hr hnr
  · by_cases hr : intStrInRange choice 1 (p0 :: ps).length
    · have hlt : pyInt choice - 1 < (p0 :: ps).length := by
        rcases hr with ⟨_, h1, h2⟩
        simp at h2 ⊢
        omega
      rcases hget : (p0 :: ps).get? (pyInt choice - 1) with _ | p
      · rw [List.get?_eq_none] at hget
        omega
      · have hrun : list_playlists_run (.ok (p0 :: ps)) choice (.ok ())
            = ([Out.table "Your Playlists" ((p0 :: ps).enum.map fun ip => playlistRow ip.1 ip.2),
                .line ("Now playing playlist: " ++ p.name)],
               [.currentUserPlaylists, .startPlaybackContext p.uri]) := by
          unfold list_playlists_run
          simp only [List.isEmpty_cons, Bool.false_eq_true, if_false, if_pos hr, hget]
        refine ⟨fun _ => ⟨by rw [hrun]; rfl, by simp⟩, ?_, fun p' _ hget' => ?_,
          fun hn => absurd hr hn⟩
        · rw [hrun]
          constructor
          · intro _
            exact hr
          · intro _
            exact ⟨p.uri, by simp⟩
        · have hp' : p' = p := (Option.some.inj hget').symm
          subst hp'
          rw [hrun]
    · have hrun : list_playlists_run (.ok (p0 :: ps)) choice (.ok ())
          = ([Out.table "Your Playlists" ((p0 :: ps).enum.map fun ip => playlistRow ip.1 ip.2)],
             [.currentUserPlaylists]) := by
        unfold list_playlists_run
        simp only [List.isEmpty_cons, Bool.false_eq_true, if_false, if_neg hr]
      refine ⟨fun _ => ⟨by rw [hrun]; rfl, by simp⟩, ?_, fun p hr' _ => absurd hr' hr,
        fun _ => by rw [hrun]⟩
      rw [hrun]
      constructor
      · rintro ⟨u, hu⟩
        simp at hu
      · intro hr'
        exact absurd hr' hr

/-- C6 witness: the amended listing theorem at a one-playlist page — the
selection `"1"` issues the context-playback call, `"2"` does not. -/
theorem c6_playlist_listing_witness :
    (list_playlists_run (.ok [⟨"P", 3, "uP"⟩]) "1" (.ok ())).2
      = [.currentUserPlaylists, .startPlaybackContext "uP"]
    ∧ (list_playlists_run (.ok [⟨"P", 3, "uP"⟩]) "2" (.ok ())).2
      = [.currentUserPlaylists] :=
  ⟨(c6_playlist_listing [⟨"P", 3, "uP"⟩] "1").2.2.1 ⟨"P", 3, "uP"⟩ (by decide) (by decide),
   (c6_playlist_listing [⟨"P", 3, "uP"⟩] "2").2.2.2 (by decide)⟩

/-- C9 zero-duration playback state. -/
def zeroDurState : PlaybackState :=
  ⟨true, 1000, some ⟨"t", ["a"], "al", 0, "u"⟩, false, "off", ⟨50⟩⟩

/-- C9 counterexample: with `duration_ms = 0` the handler *does* render the
track-info header lines (Now Playing / Track / Artist / Album) before the
unguarded division raises; only then is the error caught and printed. -/
theorem c9_counterexample :
    Out.line "Track: t" ∈ (show_current_track_run (.ok (some zeroDurState))).1
    ∧ (show_current_track_run (.ok (some zeroDurState))).1
        = [.line "Now Playing:", .line "Track: t", .line "Artist: a",
           .line "Album: al", .line "Error: division by zero"] := by decide

/-- C9 (amended): for a playback state whose current track has
`duration_ms = 0`, the handler renders the Now Playing header and the
track/artist/album lines, then the unguarded division raises and the generic
caught-error path prints the inline error message and returns to the menu;
the progress line is never rendered. -/
theorem c9_zero_duration (cur : PlaybackState) (t : Track)
    (hitem : cur.item = some t) (hd : t.duration_ms = 0) :
    show_current_track_run (.ok (some cur))
      = ([.line "Now Playing:", .line ("Track: " ++ t.name),
          .line ("Artist: " ++ joinComma t.artists), .line ("Album: " ++ t.album),
          .line (errLine "division by zero")], [.currentPlayback]) := by
  simp [show_current_track_run, hitem, hd]

/-- C9 witness: the amended zero-duration theorem at the concrete state. -/
theorem c9_zero_duration_witness :
    show_current_track_run (.ok (some zeroDurState))
      = ([.line "Now Playing:", .line ("Track: " ++ "t"),
          .line ("Artist: " ++ joinComma ["a"]), .line ("Album: " ++ "al"),
          .line (errLine "division by zero")], [.currentPlayback]) :=
  c9_zero_duration zeroDurState ⟨"t", ["a"], "al", 0, "u"⟩ (by decide) (by decide)

/-- C7: every command handler catches any exception raised by an Adapter
call, renders it as the inline `Error: ...` message, and returns normally;
the dispatcher loop therefore continues past every handler invocation and no
Adapter failure terminates the process.  The conjuncts cover each handler's
Adapter call sites in program order; `getLast?` conjuncts show the inline
error as the final output when a later call in the handler fails. -/
theorem c7_uniform_failure (m : String) :
    (∀ p s, toggle_playback_run (.error m) p s = ([.line (errLine m)], [.currentPlayback]))
    ∧ (∀ st s, st.is_playing = true →
        toggle_playback_run (.ok (some st)) (.error m) s
          = ([.line (errLine m)], [.currentPlayback, .pausePlayback]))
    ∧ (∀ st p, st.is_playing = false →
        toggle_playback_run (.ok (some st)) p (.error m)
          = ([.line (errLine m)], [.currentPlayback, .startPlayback]))
    ∧ next_track_run (.error m) = ([.line (errLine m)], [.nextTrack])
    ∧ previous_track_run (.error m) = ([.line (errLine m)], [.previousTrack])
    ∧ (∀ q c s, q ≠ "" →
        search_track_run q (.error m) c s = ([.line (errLine m)], [.search q 10]))
    ∧ (∀ q tracks c t, q ≠ "" → intStrInRange c 1 tracks.length →
        tracks.get? (pyInt c - 1) = some t →
        (search_track_run q (.ok tracks) c (.error m)).1.getLast? = some (.line (errLine m)))
    ∧ (∀ c s, list_playlists_run (.error m) c s = ([.line (errLine m)], [.currentUserPlaylists]))
    ∧ (∀ items c p, intStrInRange c 1 items.length →
        items.get? (pyInt c - 1) = some p →
        (list_playlists_run (.ok items) c (.error m)).1.getLast? = some (.line (errLine m)))
    ∧ show_current_track_run (.error m) = ([.line (errLine m)], [.currentPlayback])
    ∧ (∀ i v, adjust_volume_run (.error m) i v = ([.line (errLine m)], [.currentPlayback]))
    ∧ (∀ st i, intStrInRange i 0 100 →
        (adjust_volume_run (.ok (some st)) i (.error m)).1.getLast? = some (.line (errLine m)))
    ∧ (∀ s h rest, dispatch s = .invokes h →
        (runMenuLoop (.input s :: rest)).2 = (runMenuLoop rest).2) := by
  refine ⟨fun p s => rfl, fun st s hp => ?_, fun st p hp => ?_, rfl, rfl,
    fun q c s hq => ?_, fun q tracks c t hq hr hget => ?_, fun c s => rfl,
    fun items c p hr hget => ?_, rfl, fun i v => rfl, fun st i hr => ?_,
    fun s h rest hd => by simp [runMenuLoop, hd]⟩
  · unfold toggle_playback_run
    simp only [hp, if_true]
  · unfold toggle_playback_run
    simp only [hp, Bool.false_eq_true, if_false]
  · have hqd : q.data.isEmpty = false := by
      cases hqe : q.data.isEmpty
      · rfl
      · exact absurd (String.ext (by simpa [List.isEmpty_iff] using hqe)) hq
    unfold search_track_run
    simp only [hqd, Bool.false_eq_true, if_false]
  · have hqd : q.data.isEmpty = false := by
      cases hqe : q.data.isEmpty
      · rfl
      · exact absurd (String.ext (by simpa [List.isEmpty_iff] using hqe)) hq
    rcases tracks with _ | ⟨t0, ts⟩
    · rcases hr with ⟨_, h1, h2⟩
      simp at h2
      omega
    · have hrun : (search_track_run q (.ok (t0 :: ts)) c (.error m)).1
          = [Out.table ("Results for '" ++ q ++ "'")
              ((t0 :: ts).enum.map fun it => trackRow it.1 it.2), .line (errLine m)] := by
        unfold search_track_run
        simp only [hqd, Bool.false_eq_true, if_false, List.isEmpty_cons, if_pos hr, hget]
      rw [hrun]
      rfl
  · rcases items with _ | ⟨p0, ps⟩
    · rcases hr with ⟨_, h1, h2⟩
      simp at h2
      omega
    · have hrun : (list_playlists_run (.ok (p0 :: ps)) c (.error m)).1
          = [Out.table "Your Playlists" ((p0 :: ps).enum.map fun ip => playlistRow ip.1 ip.2),
             .line (errLine m)] := by
        unfold list_playlists_run
        simp only [List.isEmpty_cons, Bool.false_eq_true, if_false, if_pos hr, hget]
      rw [hrun]
      rfl
  · have hrun : (adjust_volume_run (.ok (some st)) i (.error m)).1
        = [Out.line ("Current volume: " ++ toString st.device.volume_percent ++ "%"),
           .line (errLine m)] := by
      unfold adjust_volume_run
      simp only [if_pos hr]
    rw [hrun]
    rfl

/-- C7 witness: the uniform-failure theorem at the concrete message
`"boom"`, with every hypothesis-bearing conjunct instantiated. -/
theorem c7_uniform_failure_witness :
    toggle_playback_run (.error "boom") (.ok ()) (.ok ())
      = ([.line (errLine "boom")], [.currentPlayback])
    ∧ toggle_playback_run (.ok (some ⟨true, 0, none, false, "off", ⟨50⟩⟩)) (.error "boom") (.ok ())
      = ([.line (errLine "boom")], [.currentPlayback, .pausePlayback])
    ∧ toggle_playback_run (.ok (some ⟨false, 0, none, false, "off", ⟨50⟩⟩)) (.ok ()) (.error "boom")
      = ([.line (errLine "boom")], [.currentPlayback, .startPlayback])
    ∧ search_track_run "q" (.error "boom") "1" (.ok ())
      = ([.line (errLine "boom")], [.search "q" 10])
    ∧ (search_track_run "q" (.ok [⟨"A", ["x"], "al", 1000, "uA"⟩]) "1" (.error "boom")).1.getLast?
      = some (.line (errLine "boom"))
    ∧ (list_playlists_run (.ok [⟨"P", 3, "uP"⟩]) "1" (.error "boom")).1.getLast?
      = some (.line (errLine "boom"))
    ∧ (adjust_volume_run (.ok (some ⟨false, 0, none, false, "off", ⟨50⟩⟩)) "42"
        (.error "boom")).1.getLast? = some (.line (errLine "boom"))
    ∧ (runMenuLoop (.input "1" :: [.input "0"])).2 = (runMenuLoop [.input "0"]).2 :=
  ⟨(c7_uniform_failure "boom").1 (.ok ()) (.ok ()),
   (c7_uniform_failure "boom").2.1 ⟨true, 0, none, false, "off", ⟨50⟩⟩ (.ok ()) rfl,
   (c7_uniform_failure "boom").2.2.1 ⟨false, 0, none, false, "off", ⟨50⟩⟩ (.ok ()) rfl,
   (c7_uniform_failure "boom").2.2.2.2.2.1 "q" "1" (.ok ()) (by decide),
   (c7_uniform_failure "boom").2.2.2.2.2.2.1 "q" [⟨"A", ["x"], "al", 1000, "uA"⟩] "1"
     ⟨"A", ["x"], "al", 1000, "uA"⟩ (by decide) (by decide) (by decide),
   (c7_uniform_failure "boom").2.2.2.2.2.2.2.2.1 [⟨"P", 3, "uP"⟩] "1" ⟨"P", 3, "uP"⟩
     (by decide) (by decide),
   (c7_uniform_failure "boom").2.2.2.2.2.2.2.2.2.2.2.1 ⟨false, 0, none, false, "off", ⟨50⟩⟩
     "42" (by decide),
   (c7_uniform_failure "boom").2.2.2.2.2.2.2.2.2.2.2.2 "1" .toggle [.input "0"] (by decide)⟩

/-- C8: when the application identity token or secret is missing (or empty)
in the environment, the program prints which variables are required and
terminates with exit status 1 before any menu is shown; the `SystemExit` is
not intercepted by `main`'s `except Exception` handling (otherwise the exit
status would be 0). -/
theorem c8_missing_credentials (env : Env)
    (h : truthy env.client_id = false ∨ truthy env.client_secret = false) :
    ∀ (authRes : Except String Unit) (events : List LoopEvent),
      main_run env authRes events
        = (Out.line "Starting Spotify CLI Player..." :: credErrorLines, some 1)
      ∧ Out.line "===== Spotify CLI Player =====" ∉ (main_run env authRes events).1 := by
  intro authRes events
  have hcond : (!truthy env.client_id || !truthy env.client_secret) = true := by
    rcases h with h | h <;> simp [h]
  have hsetup : setup_spotify env authRes = (credErrorLines, .error (.systemExit 1)) := by
    unfold setup_spotify
    rw [hcond]
    rfl
  have hmain : main_run env authRes events
      = (Out.line "Starting Spotify CLI Player..." :: credErrorLines, some 1) := by
    unfold main_run
    rw [hsetup]
  refine ⟨hmain, ?_⟩
  rw [hmain]
  decide

/-- C8 witness: missing identity token with concrete secret, arbitrary
Adapter behavior and one pending menu input. -/
theorem c8_missing_credentials_witness :
    main_run ⟨none, some "sec"⟩ (.ok ()) [.input "1"]
      = (Out.line "Starting Spotify CLI Player..." :: credErrorLines, some 1)
    ∧ Out.line "===== Spotify CLI Player ====="
        ∉ (main_run ⟨none, some "sec"⟩ (.ok ()) [.input "1"]).1 :=
  c8_missing_credentials ⟨none, some "sec"⟩ (Or.inl rfl) (.ok ()) [.input "1"]

/-- The dispatcher loop can only finish as a normal `"0"` exit, a
`KeyboardInterrupt`, or a generic `Exception`: no code in the loop raises
`SystemExit`. -/
lemma runMenuLoop_no_systemExit (events : List LoopEvent) :
    (runMenuLoop events).2 = none
    ∨ (runMenuLoop events).2 = some (.ok ())
    ∨ (runMenuLoop events).2 = some (.error .interrupt)
    ∨ ∃ m, (runMenuLoop events).2 = some (.error (.generic m)) := by
  induction events with
  | nil => exact Or.inl rfl
  | cons e rest ih =>
    cases e with
    | interruptRaised => exact Or.inr (Or.inr (Or.inl rfl))
    | genericRaised m => exact Or.inr (Or.inr (Or.inr ⟨m, rfl⟩))
    | input s =>
      cases hd : dispatch s with
      | exits =>
        refine Or.inr (Or.inl ?_)
        simp [runMenuLoop, hd]
      | invokes h =>
        have : (runMenuLoop (LoopEvent.input s :: rest)).2 = (runMenuLoop rest).2 := by
          simp [runMenuLoop, hd]
        rw [this]
        exact ih
      | invalid =>
        have : (runMenuLoop (LoopEvent.input s :: rest)).2 = (runMenuLoop rest).2 := by
          simp [runMenuLoop, hd]
        rw [this]
        exact ih

/-- C10: once client setup succeeds, the process terminates with exit status
0 whenever it terminates — the `"0"` exit, a keyboard interrupt, and any
`Exception` escaping the dispatcher loop are all caught or handled in `main`,
which returns normally; no event script yields a non-zero exit. -/
theorem c10_exit_zero (env : Env) (authRes : Except String Unit)
    (hsetup : (setup_spotify env authRes).2 = .ok ()) :
    ∀ events : List LoopEvent,
      (main_run env authRes events).2 = none ∨ (main_run env authRes events).2 = some 0 := by
  intro events
  rcases hsp : setup_spotify env authRes with ⟨souts, sres⟩
  rw [hsp] at hsetup
  simp at hsetup
  subst hsetup
  have hm : (main_run env authRes events).2
      = (runMenuLoop events).2.map (fun r =>
          match r with
          | .ok _ => 0
          | .error .interrupt => 0
          | .error (.generic _) => 0
          | .error (.systemExit c) => c) := by
    unfold main_run
    rw [hsp]
    rcases hrl : runMenuLoop events with ⟨louts, lres⟩
    rcases lres with _ | r
    · rfl
    · rcases r with e | u
      · cases e <;> rfl
      · rfl
  rw [hm]
  rcases runMenuLoop_no_systemExit events with h | h | h | ⟨mm, h⟩ <;> rw [h]
  · exact Or.inl rfl
  · exact Or.inr rfl
  · exact Or.inr rfl
  · exact Or.inr rfl

/-- C10 witness: with credentials present and a successful client
construction, the scripts "exit command", "keyboard interrupt", and
"EOFError escaping the loop" all finish with exit status 0. -/
theorem c10_exit_zero_witness :
    ((main_run ⟨some "id", some "sec"⟩ (.ok ()) [.input "0"]).2 = none
      ∨ (main_run ⟨some "id", some "sec"⟩ (.ok ()) [.input "0"]).2 = some 0)
    ∧ ((main_run ⟨some "id", some "sec"⟩ (.ok ()) [.interruptRaised]).2 = none
      ∨ (main_run ⟨some "id", some "sec"⟩ (.ok ()) [.interruptRaised]).2 = some 0)
    ∧ ((main_run ⟨some "id", some "sec"⟩ (.ok ()) [.genericRaised "EOF"]).2 = none
      ∨ (main_run ⟨some "id", some "sec"⟩ (.ok ()) [.genericRaised "EOF"]).2 = some 0) :=
  ⟨c10_exit_zero ⟨some "id", some "sec"⟩ (.ok ()) rfl [.input "0"],
   c10_exit_zero ⟨some "id", some "sec"⟩ (.ok ()) rfl [.interruptRaised],
   c10_exit_zero ⟨some "id", some "sec"⟩ (.ok ()) rfl [.genericRaised "EOF"]⟩

end SpotCLI
